import Mathlib

/-!
Verification of `arthur-project/arthur-model-contracts`
(`base-model-package`): three Python abstract base classes —
`BaseModel`, `BasePreprocess`, `BasePostprocess` — each declaring one
method that unconditionally raises `NotImplementedError`.

Shallow embedding conventions:
* Python exceptions are modelled by the inductive `PyError`; a method
  that can raise returns `Except PyError _`.
* A Python method takes `self` and may in principle mutate it, so each
  method is embedded in state-passing style, returning the (possibly
  updated) `self` together with the `Except` outcome.
* Constructors (`__init__`) may in principle raise, so they return
  `Except PyError _` as well.
* Python is dynamically typed: `path_to_model` and the `data` argument
  of `BasePostprocess.process` accept values of any type, so those
  positions are type parameters.
-/

/-- Kinds of Python exceptions relevant to this package.  The source
only ever raises `NotImplementedError`; `typeError` and `valueError`
are included so that "which error kind is reachable" is a contentful
question. -/
inductive PyError where
  | notImplementedError (msg : String)
  | typeError (msg : String)
  | valueError (msg : String)
deriving DecidableEq

/-- Whether a `PyError` is a `NotImplementedError` (of any message). -/
def PyError.isNotImplemented : PyError → Bool
  | .notImplementedError _ => true
  | _ => false

/-- `base_model/base_model.py`, class `BaseModel`: the only instance
attribute ever assigned is `self.path` (in `__init__`).  The attribute
holds whatever value was passed, hence the type parameter. -/
structure BaseModel (α : Type) where
  path : α
deriving DecidableEq

/-- `BaseModel.__init__(self, path_to_model)`: stores the argument as
`self.path` and does nothing else; it contains no raise statement, so
it always succeeds. -/
def BaseModel.init {α : Type} (path_to_model : α) :
    Except PyError (BaseModel α) :=
  Except.ok { path := path_to_model }

/-- The sample-rate default declared in the source signature
`predict(self, wave: list[float], sample_rate: int = 16000)`. -/
def defaultSampleRate : Int := 16000

/-- `BaseModel.predict(self, wave, sample_rate)`: the body is a single
`raise NotImplementedError(...)`; `self` is not touched, no value is
returned. -/
def BaseModel.predict {α : Type} (self : BaseModel α)
    (wave : List Float) (sample_rate : Int) :
    BaseModel α × Except PyError (List (String × Float)) :=
  (self,
    Except.error (PyError.notImplementedError
      "Subclasses must implement the `predict` method."))

/-- Calling `predict` without the `sample_rate` argument: Python fills
in the declared default. -/
def BaseModel.predictNoRate {α : Type} (self : BaseModel α)
    (wave : List Float) :
    BaseModel α × Except PyError (List (String × Float)) :=
  self.predict wave defaultSampleRate

/-- `base_model/base_preprocessor.py`, class `BasePreprocess`: its
`__init__` body is `pass`, so instances carry no attributes at all. -/
structure BasePreprocess where
deriving DecidableEq

/-- `BasePreprocess.__init__(self)`: body is `pass`; always succeeds
and stores nothing. -/
def BasePreprocess.init : Except PyError BasePreprocess :=
  Except.ok {}

/-- `BasePreprocess.process(self, wave)`: the body is a single
`raise NotImplementedError(...)`; annotated return type is `None`. -/
def BasePreprocess.process (self : BasePreprocess)
    (wave : List Float) : BasePreprocess × Except PyError Unit :=
  (self,
    Except.error (PyError.notImplementedError
      "Subclasses must implement the `process` method."))

/-- `base_model/base_postprocessor.py`, class `BasePostprocess`: its
`__init__` body is `pass`, so instances carry no attributes at all. -/
structure BasePostprocess where
deriving DecidableEq

/-- `BasePostprocess.__init__(self)`: body is `pass`; always succeeds
and stores nothing. -/
def BasePostprocess.init : Except PyError BasePostprocess :=
  Except.ok {}

/-- `BasePostprocess.process(self, data)`: `data` is annotated `any`
and the declared result is `any`, hence the two type parameters; the
body is a single `raise NotImplementedError(...)`. -/
def BasePostprocess.process {β γ : Type} (self : BasePostprocess)
    (data : β) : BasePostprocess × Except PyError γ :=
  (self,
    Except.error (PyError.notImplementedError
      "Subclasses must implement the `process` method."))

/-- Claim C1: for every wave and sample rate, `predict` on a base
(non-subclassed) `BaseModel` raises `NotImplementedError` and never
returns a value. -/
theorem BaseModel.predict_raises_notImplemented {α : Type}
    (m : BaseModel α) (wave : List Float) (sample_rate : Int) :
    (m.predict wave sample_rate).2 =
      Except.error (PyError.notImplementedError
        "Subclasses must implement the `predict` method.") ∧
    ∀ v, (m.predict wave sample_rate).2 ≠ Except.ok v :=
  ⟨rfl, fun _ h => Except.noConfusion h⟩

/-- Claim C2: for every wave, `process` on a base (non-subclassed)
`BasePreprocess` raises `NotImplementedError` and never returns
normally. -/
theorem BasePreprocess.process_wave_raises_notImplemented
    (p : BasePreprocess) (wave : List Float) :
    (p.process wave).2 =
      Except.error (PyError.notImplementedError
        "Subclasses must implement the `process` method.") ∧
    ∀ v, (p.process wave).2 ≠ Except.ok v :=
  ⟨rfl, fun _ h => Except.noConfusion h⟩

/-- Claim C3: for every input `data` of any type (and any declared
result type), `process` on a base (non-subclassed) `BasePostprocess`
raises `NotImplementedError` and never returns normally. -/
theorem BasePostprocess.process_data_raises_notImplemented
    (β γ : Type) (q : BasePostprocess) (data : β) :
    (q.process data : BasePostprocess × Except PyError γ).2 =
      Except.error (PyError.notImplementedError
        "Subclasses must implement the `process` method.") ∧
    ∀ v : γ, (q.process data : BasePostprocess × Except PyError γ).2 ≠
      Except.ok v :=
  ⟨rfl, fun _ h => Except.noConfusion h⟩

/-- Claim C4: constructing `BaseModel` with `path_to_model = p` yields
exactly the instance whose sole attribute `path` is `p` (so the stored
path is the only state created), and the base class never reads it:
the outcome of `predict` is the same for any two stored paths. -/
theorem BaseModel.init_stores_exactly_path {α : Type} (p : α) :
    BaseModel.init p = Except.ok { path := p } ∧
    ∀ (q : α) (wave : List Float) (sample_rate : Int),
      (({ path := p } : BaseModel α).predict wave sample_rate).2 =
      (({ path := q } : BaseModel α).predict wave sample_rate).2 :=
  ⟨rfl, fun _ _ _ => rfl⟩

/-- Claim C5: `predict` leaves the instance — in particular its stored
`path` — unchanged: no state mutation occurs after construction. -/
theorem BaseModel.predict_preserves_state {α : Type}
    (m : BaseModel α) (wave : List Float) (sample_rate : Int) :
    (m.predict wave sample_rate).1 = m ∧
    (m.predict wave sample_rate).1.path = m.path :=
  ⟨rfl, rfl⟩

/-- Claim C6: the outcome of `predict` depends neither on the stored
path (even across different path types) nor on the wave or sample-rate
arguments: any two calls produce the identical outcome. -/
theorem BaseModel.predict_noninterference {α β : Type}
    (m₁ : BaseModel α) (m₂ : BaseModel β)
    (wave₁ wave₂ : List Float) (rate₁ rate₂ : Int) :
    (m₁.predict wave₁ rate₁).2 = (m₂.predict wave₂ rate₂).2 :=
  rfl

/-- Claim C7: `BasePreprocess` and `BasePostprocess` hold no state:
any two instances of the same class are equal, their constructors
produce that unique instance, and `process` returns the instance
unchanged. -/
theorem preprocess_postprocess_stateless :
    (∀ a b : BasePreprocess, a = b) ∧
    (∀ a b : BasePostprocess, a = b) ∧
    BasePreprocess.init = Except.ok {} ∧
    BasePostprocess.init = Except.ok {} ∧
    (∀ (a : BasePreprocess) (wave : List Float),
      (a.process wave).1 = a) ∧
    (∀ (β γ : Type) (a : BasePostprocess) (data : β),
      (a.process data : BasePostprocess × Except PyError γ).1 = a) :=
  ⟨fun ⟨⟩ ⟨⟩ => rfl, fun ⟨⟩ ⟨⟩ => rfl, rfl, rfl,
    fun _ _ => rfl, fun _ _ _ _ => rfl⟩

/-- Claim C8: across all three base operations and all inputs, the
only reachable error kind is `NotImplementedError` — every call fails
with it and with no other `PyError` constructor. -/
theorem only_error_kind_is_notImplemented {α β γ : Type}
    (m : BaseModel α) (p : BasePreprocess) (q : BasePostprocess)
    (wave₁ wave₂ : List Float) (sample_rate : Int) (data : β) :
    (∃ msg, (m.predict wave₁ sample_rate).2 =
      Except.error (PyError.notImplementedError msg)) ∧
    (∃ msg, (p.process wave₂).2 =
      Except.error (PyError.notImplementedError msg)) ∧
    (∃ msg, (q.process data : BasePostprocess × Except PyError γ).2 =
      Except.error (PyError.notImplementedError msg)) :=
  ⟨⟨_, rfl⟩, ⟨_, rfl⟩, ⟨_, rfl⟩⟩

/-- Claim C9: construction never fails: `BaseModel.init` succeeds for
an argument of any type, and the zero-argument constructors of
`BasePreprocess` and `BasePostprocess` always succeed. -/
theorem constructors_never_fail {α : Type} (p : α) :
    (∃ m, BaseModel.init p = Except.ok m) ∧
    (∃ a, BasePreprocess.init = Except.ok a) ∧
    (∃ b, BasePostprocess.init = Except.ok b) :=
  ⟨⟨_, rfl⟩, ⟨_, rfl⟩, ⟨_, rfl⟩⟩

/-- Claim C10: calling `predict` without the `sample_rate` argument is
the same call as `predict` with `sample_rate = 16000`: the declared
default is 16000. -/
theorem BaseModel.predict_default_sample_rate {α : Type}
    (m : BaseModel α) (wave : List Float) :
    defaultSampleRate = 16000 ∧
    m.predictNoRate wave = m.predict wave 16000 :=
  ⟨rfl, rfl⟩
